import Mathlib

/-!
Verification of the Wellbeing Copilot backend (FastAPI + SQLAlchemy).

Shallow embedding conventions:
* Python floats are modelled as rationals (ℚ); machine floats only carry
  small decimal constants here, so exact rational arithmetic is faithful.
* Datetimes are modelled as integers (minutes since an epoch); comparisons
  on datetimes become integer comparisons.
* ORM tables are Lean lists of row structures mirroring the column sets of
  app/models/*.py; a database state is one structure of such lists.
* Fallible code is embedded in Except: in particular, several service
  methods reference ORM columns that do not exist on the declared models
  (for example Transaction.date, where the model declares transaction_date),
  which raises AttributeError at run time; those accesses are embedded as
  Except.error PyErr.attributeError.
* Python truthiness on optional numbers (if x:) is embedded explicitly:
  none and 0 are falsy.
-/

/-- Error values a translated Python computation can raise. -/
inductive PyErr where
  | attributeError
  | zeroDivisionError
  deriving DecidableEq, Repr

/-- Round-half-to-even on rationals, the tie rule of the Python builtin
round(). Returns the integer nearest to x, ties going to the even one. -/
def rndHalfEven (x : ℚ) : ℤ :=
  if x - ⌊x⌋ < 1/2 then ⌊x⌋
  else if 1/2 < x - ⌊x⌋ then ⌊x⌋ + 1
  else if ⌊x⌋ % 2 = 0 then ⌊x⌋ else ⌊x⌋ + 1

/-- Embedding of the Python builtin round(x, 2): round to two decimal
places, ties to even. -/
def pyRound2 (x : ℚ) : ℚ := (rndHalfEven (x * 100) : ℚ) / 100

/-- Embedding of the Python builtin round(x, 1). -/
def pyRound1 (x : ℚ) : ℚ := (rndHalfEven (x * 10) : ℚ) / 10

namespace HealthCalculator

/-- Embedding of HealthCalculator.calculate_bmi
(app/services/health_calculations.py): height is converted to metres and
BMI = weight divided by the square of the height, rounded to 2 places.
Division by zero (height_cm = 0) is modelled separately in
calculate_bmi_checked; in ℚ the total function returns round2 of w / 0 = 0. -/
def calculate_bmi (weight_kg height_cm : ℚ) : ℚ :=
  let height_m := height_cm / 100
  let bmi := weight_kg / height_m ^ 2
  pyRound2 bmi

/-- Total (Option-returning) embedding of calculate_bmi: the division
weight_kg / height_m ** 2 raises ZeroDivisionError in Python when the
divisor is zero, which happens exactly when height_cm = 0. -/
def calculate_bmi_checked (weight_kg height_cm : ℚ) : Option ℚ :=
  let height_m := height_cm / 100
  if height_m ^ 2 = 0 then none
  else some (pyRound2 (weight_kg / height_m ^ 2))

/-- Written from the words of the specification, not from the code: the
formula correctness check cited by the spec, BMI = weight/height² with the
height in metres. Used as the refinement target for calculate_bmi. -/
def bmiSpecFormula (weight_kg height_m : ℚ) : ℚ := weight_kg / height_m ^ 2

/-- Result dictionary of HealthCalculator.calculate_health_score: the
breakdown entries are kept as fields (component score and max). -/
structure HealthScoreResult where
  overall_score : ℚ
  max_score : ℚ
  percentage : ℚ
  grade : String
  bmi_points : ℚ
  sleep_points : ℚ
  exercise_points : ℚ
  nutrition_points : ℚ
  vitals_points : ℚ
  deriving DecidableEq, Repr

/-- Component 1 of calculate_health_score, the BMI score (20 points); the
Python gate "if bmi:" makes None and 0 both fall to the else branch. -/
def bmiScore (bmi : Option ℚ) : ℚ :=
  match bmi with
  | none => 0
  | some b =>
    if b = 0 then 0
    else if 18.5 ≤ b ∧ b < 25 then 20
    else if (17 ≤ b ∧ b < 18.5) ∨ (25 ≤ b ∧ b < 27) then 15
    else if (16 ≤ b ∧ b < 17) ∨ (27 ≤ b ∧ b < 30) then 10
    else 5

/-- Component 2 of calculate_health_score, the sleep score (20 points). -/
def sleepScore (sleep_avg : Option ℚ) : ℚ :=
  match sleep_avg with
  | none => 0
  | some s =>
    if s = 0 then 0
    else if 7 ≤ s ∧ s ≤ 9 then 20
    else if (6 ≤ s ∧ s < 7) ∨ (9 < s ∧ s ≤ 10) then 15
    else if (5 ≤ s ∧ s < 6) ∨ (10 < s ∧ s ≤ 11) then 10
    else 5

/-- Component 3 of calculate_health_score, the exercise score (25 points);
gated by "is not None", so 0 days scores 5 points. -/
def exerciseScore (exercise_days : Option ℤ) : ℚ :=
  match exercise_days with
  | none => 0
  | some e =>
    if 5 ≤ e then 25
    else if 3 ≤ e then 20
    else if 1 ≤ e then 15
    else 5

/-- Component 4 of calculate_health_score, the nutrition points before
rounding: (nutrition_score / 100) * 20, gated by "is not None". -/
def nutritionPoints (nutrition_score : Option ℚ) : ℚ :=
  match nutrition_score with
  | none => 0
  | some n => n / 100 * 20

/-- Blood-pressure part of component 5 of calculate_health_score (gated by
truthiness of the optional int). -/
def bpPoints (blood_pressure_systolic : Option ℤ) : ℚ :=
  match blood_pressure_systolic with
  | none => 0
  | some s =>
    if s = 0 then 0
    else if 90 ≤ s ∧ s ≤ 120 then 7.5
    else if 121 ≤ s ∧ s ≤ 129 then 5
    else 2.5

/-- Heart-rate part of component 5 of calculate_health_score. -/
def hrPoints (heart_rate : Option ℤ) : ℚ :=
  match heart_rate with
  | none => 0
  | some h =>
    if h = 0 then 0
    else if 60 ≤ h ∧ h ≤ 80 then 7.5
    else if (50 ≤ h ∧ h < 60) ∨ (80 < h ∧ h ≤ 100) then 5
    else 2.5

/-- Total of calculate_health_score:
sum(s["score"] for s in scores.values()), where the nutrition and vitals
entries were stored rounded to 2 places. -/
def healthTotalScore (bmi sleep_avg : Option ℚ) (exercise_days : Option ℤ)
    (nutrition_score : Option ℚ) (blood_pressure_systolic heart_rate : Option ℤ) : ℚ :=
  bmiScore bmi + sleepScore sleep_avg + exerciseScore exercise_days
    + pyRound2 (nutritionPoints nutrition_score)
    + pyRound2 (bpPoints blood_pressure_systolic + hrPoints heart_rate)

/-- Grade letter of calculate_health_score from the percentage. -/
def healthGrade (percentage : ℚ) : String :=
  if 90 ≤ percentage then "A+"
  else if 80 ≤ percentage then "A"
  else if 70 ≤ percentage then "B"
  else if 60 ≤ percentage then "C"
  else if 50 ≤ percentage then "D"
  else "F"

/-- Embedding of HealthCalculator.calculate_health_score. Optional inputs
follow the Python code exactly: bmi, sleep_avg, blood_pressure_systolic and
heart_rate are gated by truthiness (None and 0 both skip the component),
exercise_days and nutrition_score by "is not None". max_score is the sum of
the five per-component maxima; the percentage guard max_score > 0 always
takes the division branch. -/
def calculate_health_score (bmi : Option ℚ) (sleep_avg : Option ℚ)
    (exercise_days : Option ℤ) (nutrition_score : Option ℚ)
    (blood_pressure_systolic : Option ℤ) (heart_rate : Option ℤ) :
    HealthScoreResult :=
  let total_score := healthTotalScore bmi sleep_avg exercise_days
    nutrition_score blood_pressure_systolic heart_rate
  let max_score : ℚ := 20 + 20 + 25 + 20 + 15
  let percentage : ℚ :=
    if 0 < max_score then total_score / max_score * 100 else 0
  { overall_score := pyRound2 total_score
    max_score := max_score
    percentage := pyRound2 percentage
    grade := healthGrade percentage
    bmi_points := bmiScore bmi
    sleep_points := sleepScore sleep_avg
    exercise_points := exerciseScore exercise_days
    nutrition_points := pyRound2 (nutritionPoints nutrition_score)
    vitals_points := pyRound2 (bpPoints blood_pressure_systolic + hrPoints heart_rate) }

end HealthCalculator

/-! ## Data model (app/models) -/

/-- Enum TransactionType (app/models/financial.py). -/
inductive TransactionType where
  | income | expense | transfer
  deriving DecidableEq, Repr

/-- Enum TransactionCategory (app/models/financial.py). -/
inductive TransactionCategory where
  | salary | freelance | investment_income | other_income
  | housing | transportation | food | utilities | healthcare
  | entertainment | shopping | education | debt_payment | savings
  | other_expense
  deriving DecidableEq, Repr

/-- String value of a TransactionCategory member, as Python reads
category.value. -/
def TransactionCategory.value : TransactionCategory → String
  | .salary => "salary"
  | .freelance => "freelance"
  | .investment_income => "investment_income"
  | .other_income => "other_income"
  | .housing => "housing"
  | .transportation => "transportation"
  | .food => "food"
  | .utilities => "utilities"
  | .healthcare => "healthcare"
  | .entertainment => "entertainment"
  | .shopping => "shopping"
  | .education => "education"
  | .debt_payment => "debt_payment"
  | .savings => "savings"
  | .other_expense => "other_expense"

/-- Enum InvestmentType (app/models/financial.py). -/
inductive InvestmentType where
  | stocks | bonds | mutual_funds | etf | crypto | real_estate
  | retirement | other
  deriving DecidableEq, Repr

/-- Enum DebtType (app/models/financial.py). -/
inductive DebtType where
  | credit_card | student_loan | mortgage | car_loan | personal_loan | other
  deriving DecidableEq, Repr

/-- Row of the transactions table (class Transaction,
app/models/financial.py). -/
structure Transaction where
  id : ℤ
  user_id : ℤ
  transaction_type : TransactionType
  category : TransactionCategory
  amount : ℚ
  description : Option String
  transaction_date : ℤ
  merchant : Option String
  tags : Option String
  created_at : ℤ
  updated_at : Option ℤ
  deriving DecidableEq, Repr

/-- Row of the investments table (class Investment,
app/models/financial.py). -/
structure Investment where
  id : ℤ
  user_id : ℤ
  investment_type : InvestmentType
  name : String
  symbol : Option String
  quantity : ℚ
  purchase_price : ℚ
  current_price : Option ℚ
  purchase_date : ℤ
  notes : Option String
  deriving DecidableEq, Repr

/-- Row of the debts table (class Debt, app/models/financial.py). -/
structure Debt where
  id : ℤ
  user_id : ℤ
  debt_type : DebtType
  name : String
  original_amount : ℚ
  current_balance : ℚ
  interest_rate : ℚ
  minimum_payment : ℚ
  due_date : Option ℤ
  start_date : ℤ
  target_payoff_date : Option ℤ
  is_active : ℤ
  notes : Option String
  deriving DecidableEq, Repr

/-- Row of the work_sessions table (class WorkSession,
app/models/work_life.py). Note that this model declares duration_hours and
no duration_minutes column; intelligence_engine.py nevertheless reads
s.duration_minutes. -/
structure WorkSession where
  id : ℤ
  user_id : ℤ
  start_time : ℤ
  end_time : ℤ
  duration_hours : ℚ
  work_type : Option String
  is_overtime : Bool
  stress_level : Option ℤ
  deriving DecidableEq, Repr

/-- Row of the boundary_violations table (class BoundaryViolation,
app/models/work_life.py). The model has no user_id and no occurred_at
column (it carries boundary_id and violation_date);
intelligence_engine.py nevertheless filters on both missing names. -/
structure BoundaryViolation where
  id : ℤ
  boundary_id : ℤ
  violation_date : ℤ
  circumstances : String
  impact : ℤ
  deriving DecidableEq, Repr

/-- Row of the sleep_entries table (class SleepEntry,
app/models/wellbeing.py). -/
structure SleepEntry where
  id : ℤ
  user_id : ℤ
  sleep_hours : ℚ
  sleep_quality : ℤ
  bedtime : Option ℤ
  wake_time : Option ℤ
  notes : Option String
  created_at : ℤ
  deriving DecidableEq, Repr

/-- Row of the mood_entries table (class MoodEntry,
app/models/wellbeing.py). -/
structure MoodEntry where
  id : ℤ
  user_id : ℤ
  mood_score : ℤ
  energy_level : ℤ
  stress_level : ℤ
  notes : Option String
  created_at : ℤ
  deriving DecidableEq, Repr

/-- Row of the exercises table (class Exercise, app/models/health.py).
The model dates a row by exercise_date; intelligence_engine.py reads the
nonexistent performed_at. -/
structure HealthExercise where
  id : ℤ
  user_id : ℤ
  name : String
  duration_minutes : ℤ
  intensity : Option ℤ
  exercise_date : ℤ
  deriving DecidableEq, Repr

/-- Row of the deep_work_sessions table (class DeepWorkSession,
app/models/productivity.py). -/
structure DeepWorkSession where
  id : ℤ
  user_id : ℤ
  start_time : ℤ
  end_time : ℤ
  duration_minutes : ℤ
  focus_score : ℤ
  interruptions : ℤ
  deriving DecidableEq, Repr

/-- Row of the users table (class User, app/models/user.py). -/
structure User where
  id : ℤ
  email : String
  username : String
  hashed_password : String
  full_name : Option String
  is_active : Bool
  is_superuser : Bool
  deriving DecidableEq, Repr

/-- Row of the user_preferences table (class UserPreferences,
app/models/preferences.py); the notification, threshold and UI settings the
services read. -/
structure UserPreferences where
  id : ℤ
  user_id : ℤ
  enable_email_notifications : Bool
  enable_push_notifications : Bool
  daily_briefing_enabled : Bool
  daily_briefing_time : String
  weekly_review_enabled : Bool
  alert_critical_enabled : Bool
  alert_high_enabled : Bool
  alert_medium_enabled : Bool
  target_sleep_hours : ℚ
  target_exercise_minutes : ℤ
  target_work_hours : ℚ
  target_deep_work_hours : ℚ
  target_savings_rate : ℚ
  burnout_warning_threshold : ℤ
  spending_alert_threshold : ℚ
  data_sharing_enabled : Bool
  analytics_enabled : Bool
  theme : String
  language : String
  timezone : String
  currency : String
  deriving DecidableEq, Repr

/-- Row of the notification_logs table (class NotificationLog,
app/models/preferences.py). extra_data (a JSON column) is modelled as an
optional string payload. -/
structure NotificationLog where
  id : ℤ
  user_id : ℤ
  notification_type : String
  category : String
  title : String
  message : String
  status : String
  delivery_method : Option String
  sent_at : ℤ
  delivered_at : Option ℤ
  read_at : Option ℤ
  extra_data : Option String
  deriving DecidableEq, Repr

/-- A database state: one list of rows per table the verified code touches. -/
structure DB where
  users : List User
  transactions : List Transaction
  investments : List Investment
  debts : List Debt
  work_sessions : List WorkSession
  boundary_violations : List BoundaryViolation
  sleep_entries : List SleepEntry
  mood_entries : List MoodEntry
  exercises : List HealthExercise
  deep_work_sessions : List DeepWorkSession
  user_preferences : List UserPreferences
  notification_logs : List NotificationLog
  deriving DecidableEq, Repr

/-- The empty database state. -/
def emptyDB : DB :=
  { users := [], transactions := [], investments := [], debts := []
    work_sessions := [], boundary_violations := [], sleep_entries := []
    mood_entries := [], exercises := [], deep_work_sessions := []
    user_preferences := [], notification_logs := [] }

/-! User-scoped queries: every read endpoint filters its table by
user_id == current_user.id before any further condition, so the combinators
below are the embedding of query(T).filter(T.user_id == current_user.id). -/

/-- Rows of transactions scoped to one user. -/
def userTransactions (db : DB) (uid : ℤ) : List Transaction :=
  db.transactions.filter (fun t => decide (t.user_id = uid))

/-- Rows of investments scoped to one user. -/
def userInvestments (db : DB) (uid : ℤ) : List Investment :=
  db.investments.filter (fun i => decide (i.user_id = uid))

/-- Rows of debts scoped to one user. -/
def userDebts (db : DB) (uid : ℤ) : List Debt :=
  db.debts.filter (fun d => decide (d.user_id = uid))

/-- Rows of work_sessions scoped to one user. -/
def userWorkSessions (db : DB) (uid : ℤ) : List WorkSession :=
  db.work_sessions.filter (fun s => decide (s.user_id = uid))

/-- Rows of sleep_entries scoped to one user. -/
def userSleepEntries (db : DB) (uid : ℤ) : List SleepEntry :=
  db.sleep_entries.filter (fun s => decide (s.user_id = uid))

/-- Rows of mood_entries scoped to one user. -/
def userMoodEntries (db : DB) (uid : ℤ) : List MoodEntry :=
  db.mood_entries.filter (fun m => decide (m.user_id = uid))

/-- Rows of deep_work_sessions scoped to one user. -/
def userDeepWorkSessions (db : DB) (uid : ℤ) : List DeepWorkSession :=
  db.deep_work_sessions.filter (fun s => decide (s.user_id = uid))

/-- Rows of user_preferences scoped to one user (first row, as .first()). -/
def userPreferencesRow (db : DB) (uid : ℤ) : Option UserPreferences :=
  (db.user_preferences.filter (fun p => decide (p.user_id = uid))).head?

/-- Rows of notification_logs scoped to one user. -/
def userNotificationLogs (db : DB) (uid : ℤ) : List NotificationLog :=
  db.notification_logs.filter (fun n => decide (n.user_id = uid))

/-- Minutes in a number of days: datetimes are modelled as minutes since an
epoch, so timedelta(days=d) is d * 1440 minutes. -/
def daysMin (d : ℤ) : ℤ := d * 1440

/-- The calendar day containing a modelled datetime (Python .date()). -/
def dayOf (t : ℤ) : ℤ := t / 1440

/-! ## Sorting helper

Python's sorted()/list.sort() and SQL ORDER BY are embedded as a stable
insertion sort: x is placed before the first element y with le x y, so
elements that compare equal keep their original relative order, which is
exactly the guarantee of Python's stable sort. -/

/-- Insert x into a list sorted by le, before the first y with le x y. -/
def insertSorted (le : α → α → Bool) (x : α) : List α → List α
  | [] => [x]
  | y :: ys => if le x y then x :: y :: ys else y :: insertSorted le x ys

/-- Stable sort by a boolean comparison (le a b: a may come before b). -/
def stableSortBy (le : α → α → Bool) (l : List α) : List α :=
  l.foldr (insertSorted le) []

/-! ## Financial endpoints (app/api/endpoints/financial.py) -/

/-- Payload schema TransactionCreate (app/schemas/financial.py); pydantic
validates amount with gt=0. -/
structure TransactionCreate where
  transaction_type : TransactionType
  category : TransactionCategory
  amount : ℚ
  description : Option String
  transaction_date : ℤ
  merchant : Option String
  tags : Option String
  deriving DecidableEq, Repr

/-- Embedding of POST /transactions (create_transaction): a Transaction row
is built from the payload fields plus user_id = current_user.id, added and
committed; the endpoint replies 201 with the row. newId is the primary key
the database assigns on insert and now the created_at server default. -/
def create_transaction (db : DB) (uid : ℤ) (payload : TransactionCreate)
    (newId now : ℤ) : ℕ × Transaction × DB :=
  let t : Transaction :=
    { id := newId
      user_id := uid
      transaction_type := payload.transaction_type
      category := payload.category
      amount := payload.amount
      description := payload.description
      transaction_date := payload.transaction_date
      merchant := payload.merchant
      tags := payload.tags
      created_at := now
      updated_at := none }
  (201, t, { db with transactions := db.transactions ++ [t] })

/-- Embedding of GET /transactions (get_transactions): the user-scoped query
with the optional filters, ordered by transaction_date descending, then
offset skip and limit. Enum and datetime parameters are gated by Python
truthiness (an enum member and a datetime are always truthy, so present
means applied); min_amount and max_amount by "is not None". -/
def get_transactions (db : DB) (uid : ℤ) (skip limit : ℕ)
    (transaction_type : Option TransactionType)
    (category : Option TransactionCategory)
    (start_date end_date : Option ℤ) (min_amount max_amount : Option ℚ) :
    List Transaction :=
  let q := userTransactions db uid
  let q := match transaction_type with
    | some tt => q.filter (fun t => decide (t.transaction_type = tt))
    | none => q
  let q := match category with
    | some c => q.filter (fun t => decide (t.category = c))
    | none => q
  let q := match start_date with
    | some sd => q.filter (fun t => decide (sd ≤ t.transaction_date))
    | none => q
  let q := match end_date with
    | some ed => q.filter (fun t => decide (t.transaction_date ≤ ed))
    | none => q
  let q := match min_amount with
    | some ma => q.filter (fun t => decide (ma ≤ t.amount))
    | none => q
  let q := match max_amount with
    | some ma => q.filter (fun t => decide (t.amount ≤ ma))
    | none => q
  let q := stableSortBy (fun a b => decide (b.transaction_date ≤ a.transaction_date)) q
  (q.drop skip).take limit

/-- Embedding of GET /transactions/id (get_transaction): first row with the
given id among the user's transactions, else HTTP 404; the database is
returned unchanged (the handler only reads). -/
def get_transaction (db : DB) (uid : ℤ) (transaction_id : ℤ) :
    Except ℕ Transaction × DB :=
  match (userTransactions db uid).find? (fun t => decide (t.id = transaction_id)) with
  | some t => (.ok t, db)
  | none => (.error 404, db)

/-- Embedding of DELETE /transactions/id (delete_transaction): the first
matching row is deleted and the commit returns 204; when no row matches,
HTTP 404 is raised and the database is left unchanged. -/
def delete_transaction (db : DB) (uid : ℤ) (transaction_id : ℤ) :
    Except ℕ Unit × DB :=
  let remaining := db.transactions.eraseP
    (fun t => decide (t.id = transaction_id) && decide (t.user_id = uid))
  match (userTransactions db uid).find? (fun t => decide (t.id = transaction_id)) with
  | some _ => (.ok (), { db with transactions := remaining })
  | none => (.error 404, db)

/-- Python dict accumulation by insertion order: add v under key k, updating
the existing entry in place or appending a new one. -/
def insertAdd (k : String) (v : ℚ) : List (String × ℚ) → List (String × ℚ)
  | [] => [(k, v)]
  | (k', v') :: rest =>
    if k' = k then (k', v' + v) :: rest else (k', v') :: insertAdd k v rest

/-- Python "x or y" on an optional float: y when x is None or 0. -/
def pyOrQ (x : Option ℚ) (y : ℚ) : ℚ :=
  match x with
  | none => y
  | some v => if v = 0 then y else v

/-- Response of GET /dashboard (get_financial_dashboard), flattened: the
nested current_month / last_month / month_over_month dictionaries become
prefixed fields. -/
structure FinancialDashboard where
  current_balance : ℚ
  net_worth : ℚ
  cm_income : ℚ
  cm_expenses : ℚ
  cm_net : ℚ
  cm_savings_rate : ℚ
  lm_income : ℚ
  lm_expenses : ℚ
  lm_net : ℚ
  income_change_percent : ℚ
  expense_change_percent : ℚ
  spending_by_category : List (String × ℚ)
  investments_total_value : ℚ
  investments_count : ℕ
  debts_total_balance : ℚ
  debts_count : ℕ
  financial_health_score : ℚ
  deriving DecidableEq, Repr

/-- Sum of the amounts of the income transactions of a list, the embedding
of sum(t.amount for t in ts if t.transaction_type == TransactionType.INCOME). -/
def incomeSum (ts : List Transaction) : ℚ :=
  ((ts.filter (fun t => decide (t.transaction_type = .income))).map (·.amount)).sum

/-- Sum of the amounts of the expense transactions of a list. -/
def expenseSum (ts : List Transaction) : ℚ :=
  ((ts.filter (fun t => decide (t.transaction_type = .expense))).map (·.amount)).sum

/-- Spending by category of the expense transactions of a list, accumulated
in first-seen key order as a Python dict is. -/
def categorySpending (ts : List Transaction) : List (String × ℚ) :=
  ts.foldl
    (fun acc t =>
      if t.transaction_type = .expense then insertAdd t.category.value t.amount acc
      else acc)
    []

/-- Total value of a list of investments:
sum(inv.quantity * (inv.current_price or inv.purchase_price)). -/
def investmentValue (investments : List Investment) : ℚ :=
  (investments.map (fun i => i.quantity * pyOrQ i.current_price i.purchase_price)).sum

/-- Transactions of a list dated on or after a boundary. -/
def transactionsSince (ts : List Transaction) (since : ℤ) : List Transaction :=
  ts.filter (fun t => decide (since ≤ t.transaction_date))

/-- Transactions of a list dated in [first, last). -/
def transactionsBetween (ts : List Transaction) (first last : ℤ) : List Transaction :=
  ts.filter (fun t =>
    decide (first ≤ t.transaction_date) && decide (t.transaction_date < last))

/-- Active debts of a list (is_active == 1). -/
def activeDebts (ds : List Debt) : List Debt :=
  ds.filter (fun d => decide (d.is_active = 1))

/-- Percentage change used by the dashboard month-over-month block:
(cur - prev) / prev * 100 when prev > 0, else 0. -/
def pctChange (cur prev : ℚ) : ℚ :=
  if 0 < prev then (cur - prev) / prev * 100 else 0

/-- Financial health score of the dashboard: the 40/30/30 weighted sum of
savings rate, investment level and debt level, clamped into [0, 100]. -/
def dashboardHealthScore (savings_rate investment_value total_debt : ℚ) : ℚ :=
  min 100 (max 0 (
    (savings_rate * 0.4)
    + (min 100 ((investment_value / 10000) * 10) * 0.3)
    + (max 0 (100 - (total_debt / 1000)) * 0.3)))

/-- Spending-by-category dict of the dashboard response: values rounded to 2
places after a stable sort by amount, highest first. -/
def sortedCategorySpending (cs : List (String × ℚ)) : List (String × ℚ) :=
  (stableSortBy (fun a b => decide (b.2 ≤ a.2)) cs).map (fun kv => (kv.1, pyRound2 kv.2))

/-- Embedding of GET /dashboard (get_financial_dashboard). The two month
boundaries datetime(now.year, now.month, 1) and its predecessor month are
calendar plumbing and enter as the parameters current_month_start and
last_month_start. -/
def get_financial_dashboard (db : DB) (uid : ℤ)
    (current_month_start last_month_start : ℤ) : FinancialDashboard :=
  let all_user := userTransactions db uid
  let cur_month := transactionsSince all_user current_month_start
  let last_month := transactionsBetween all_user last_month_start current_month_start
  let current_income := incomeSum cur_month
  let current_expenses := expenseSum cur_month
  let last_income := incomeSum last_month
  let last_expenses := expenseSum last_month
  let investments := userInvestments db uid
  let investment_value := investmentValue investments
  let debts := activeDebts (userDebts db uid)
  let total_debt := (debts.map (·.current_balance)).sum
  let net_worth := (incomeSum all_user - expenseSum all_user)
      + investment_value - total_debt
  let savings_rate :=
    if 0 < current_income then
      (current_income - current_expenses) / current_income * 100
    else 0
  { current_balance := current_income - current_expenses
    net_worth := pyRound2 net_worth
    cm_income := pyRound2 current_income
    cm_expenses := pyRound2 current_expenses
    cm_net := pyRound2 (current_income - current_expenses)
    cm_savings_rate := pyRound2 savings_rate
    lm_income := pyRound2 last_income
    lm_expenses := pyRound2 last_expenses
    lm_net := pyRound2 (last_income - last_expenses)
    income_change_percent := pyRound2 (pctChange current_income last_income)
    expense_change_percent := pyRound2 (pctChange current_expenses last_expenses)
    spending_by_category := sortedCategorySpending (categorySpending cur_month)
    investments_total_value := pyRound2 investment_value
    investments_count := investments.length
    debts_total_balance := pyRound2 total_debt
    debts_count := debts.length
    financial_health_score :=
      pyRound2 (dashboardHealthScore savings_rate investment_value total_debt) }

/-! ## Debt payoff strategy (GET /debts/payoff-strategy) -/

/-- One entry of the debt_data working list the endpoint builds from the
queried debts. -/
structure DebtSimEntry where
  id : ℤ
  name : String
  balance : ℚ
  interest_rate : ℚ
  minimum_payment : ℚ
  deriving DecidableEq, Repr

/-- State of the payoff simulation loop. -/
structure PayoffState where
  current_month : ℕ
  remaining_debts : List DebtSimEntry
  total_interest_paid : ℚ
  timeline : List (ℕ × String)
  deriving DecidableEq, Repr

/-- Monthly interest of a debt: balance * (rate / 100) / 12. -/
def monthlyInterest (d : DebtSimEntry) : ℚ :=
  d.balance * (d.interest_rate / 100) / 12

/-- Minimum payment applied to a debt this month: min(minimum_payment, balance). -/
def monthPayment (d : DebtSimEntry) : ℚ :=
  min d.minimum_payment d.balance

/-- Balance of a debt after its minimum payment: the principal part of the
payment (payment minus accrued interest) is subtracted. -/
def afterMinimumPayment (d : DebtSimEntry) : DebtSimEntry :=
  { d with balance := d.balance - (monthPayment d - monthlyInterest d) }

/-- Extra payment applied to the head of the remaining list when part of the
monthly budget is left: min(available, balance) comes off the first debt. -/
def applyExtraPayment (available : ℚ) : List DebtSimEntry → List DebtSimEntry
  | [] => []
  | first :: rest =>
    if 0 < available then
      { first with balance := first.balance - min available first.balance } :: rest
    else first :: rest

/-- One iteration of the payoff while-loop: minimum payments on every debt,
extra payment on the head, paid-off debts removed and recorded in the
timeline under the incremented month. -/
def payoffMonthStep (monthly_payment : ℚ) (month : ℕ)
    (rem : List DebtSimEntry) (interest : ℚ) (tl : List (ℕ × String)) :
    List DebtSimEntry × ℚ × List (ℕ × String) :=
  let available := monthly_payment - (rem.map monthPayment).sum
  let after_min := rem.map afterMinimumPayment
  let after_extra := applyExtraPayment available after_min
  let newly_paid := after_extra.filter (fun d => decide (d.balance ≤ 0))
  let remaining := after_extra.filter (fun d => decide (0 < d.balance))
  (remaining,
   interest + (rem.map monthlyInterest).sum,
   tl ++ newly_paid.map (fun d => (month, d.name)))

/-- The payoff while-loop, fuelled: while remaining_debts and
current_month < 360. The fuel is 360 - current_month, so fuel 0 is exactly
current_month = 360. -/
def payoffGo (monthly_payment : ℚ) :
    ℕ → ℕ → List DebtSimEntry → ℚ → List (ℕ × String) → PayoffState
  | 0, m, rem, interest, tl =>
    { current_month := m, remaining_debts := rem
      total_interest_paid := interest, timeline := tl }
  | fuel + 1, m, rem, interest, tl =>
    if rem.isEmpty then
      { current_month := m, remaining_debts := rem
        total_interest_paid := interest, timeline := tl }
    else
      let step := payoffMonthStep monthly_payment (m + 1) rem interest tl
      payoffGo monthly_payment fuel (m + 1) step.1 step.2.1 step.2.2

/-- The payoff simulation started at month 0 with 360 months of fuel
(the 30-year cap of the source loop). -/
def runPayoffSimulation (monthly_payment : ℚ) (debt_data : List DebtSimEntry) :
    PayoffState :=
  payoffGo monthly_payment 360 0 debt_data 0 []

/-- total_months of the response: current_month when every debt was paid off,
None when debts remain after the loop. -/
def payoffTotalMonths (st : PayoffState) : Option ℕ :=
  if st.remaining_debts.isEmpty then some st.current_month else none

/-- Response union of the payoff endpoint: the early "No active debts found"
answer or the full plan. payoff_date (a strftime of now plus total_months)
is date formatting and is omitted. -/
inductive PayoffResponse where
  | noDebts (message : String)
  | plan (strategy : String) (monthly_payment : ℚ) (total_months : Option ℕ)
      (total_interest_paid : ℚ) (timeline : List (ℕ × String))
      (payment_order : List String)
  deriving DecidableEq, Repr

/-- Working list of the endpoint: queried debts mapped to DebtSimEntry and
sorted by the chosen strategy (avalanche: interest rate descending,
otherwise balance ascending; both sorts stable as in Python). -/
def preparedDebtData (debts : List Debt) (strategy : String) : List DebtSimEntry :=
  let debt_data : List DebtSimEntry := debts.map (fun d =>
    { id := d.id, name := d.name, balance := d.current_balance
      interest_rate := d.interest_rate, minimum_payment := d.minimum_payment })
  if strategy = "avalanche" then
    stableSortBy (fun a b => decide (b.interest_rate ≤ a.interest_rate)) debt_data
  else
    stableSortBy (fun a b => decide (a.balance ≤ b.balance)) debt_data

/-- Embedding of GET /debts/payoff-strategy (calculate_debt_payoff_strategy). -/
def calculate_debt_payoff_strategy (db : DB) (uid : ℤ) (monthly_payment : ℚ)
    (strategy : String) : PayoffResponse :=
  let debts := activeDebts (userDebts db uid)
  if debts.isEmpty then .noDebts "No active debts found"
  else
    let debt_data := preparedDebtData debts strategy
    let st := runPayoffSimulation monthly_payment debt_data
    .plan strategy monthly_payment (payoffTotalMonths st)
      (pyRound2 st.total_interest_paid) st.timeline (debt_data.map (·.name))

/-! ## Intelligence engine (app/services/intelligence_engine.py) -/

/-- Return dictionary of IntelligenceEngine.predict_burnout_risk; the
factors sub-dictionary becomes the factor_* fields. The local risk_level
string of the source is computed but never returned and is not modelled. -/
structure BurnoutPrediction where
  prediction_type : String
  pillar : String
  target_metric : String
  current_value : ℚ
  predicted_value : ℚ
  confidence_level : ℚ
  factor_work_hours : ℚ
  factor_boundary_violations : ℕ
  factor_sleep_quality : ℚ
  trend_direction : String
  likelihood : String
  recommendations : List String
  deriving DecidableEq, Repr

/-- Embedding of IntelligenceEngine._burnout_prevention_recommendations. -/
def burnout_prevention_recommendations (risk_score : ℚ) : List String :=
  (if 50 < risk_score then
    ["Schedule immediate time off or vacation",
     "Reduce work hours to 40 hours per week maximum"]
   else [])
  ++ (if 30 < risk_score then
    ["Set strict boundaries for after-hours work",
     "Improve sleep quality through better sleep hygiene"]
   else [])
  ++ ["Practice daily stress management techniques",
      "Increase physical activity and exercise"]

/-- Average sleep quality over the queried entries: np.mean of the
sleep_quality column, 5 when no entry was found. -/
def avgSleepQuality (sleeps : List SleepEntry) : ℚ :=
  if sleeps.isEmpty then 5
  else ((sleeps.map (fun s => (s.sleep_quality : ℚ))).sum) / (sleeps.length : ℚ)

/-- Burnout risk score of predict_burnout_risk (lines 243-246): overtime,
boundary-violation and sleep components, each capped. -/
def burnoutRiskScore (avg_daily_hours : ℚ) (violations : ℕ)
    (avg_sleep_quality : ℚ) : ℚ :=
  (if 8 < avg_daily_hours then min 40 ((avg_daily_hours - 8) * 5) else 0)
    + min 30 ((violations : ℚ) * 2.5)
    + max 0 ((7 - avg_sleep_quality) * 4)

/-- Arithmetic core of IntelligenceEngine.predict_burnout_risk, the
computation the method performs on the values its three queries would
yield (total work minutes, boundary-violation count, sleep entries). -/
def predict_burnout_risk_formula (total_work_minutes : ℚ) (violations : ℕ)
    (sleeps : List SleepEntry) : BurnoutPrediction :=
  let avg_daily_hours := (total_work_minutes / 60) / 30
  let avg_sleep_quality := avgSleepQuality sleeps
  let risk_score := burnoutRiskScore avg_daily_hours violations avg_sleep_quality
  { prediction_type := "burnout"
    pillar := "worklife"
    target_metric := "burnout_risk"
    current_value := risk_score
    predicted_value := min 100 (risk_score * 1.1)
    confidence_level := 75
    factor_work_hours := avg_daily_hours
    factor_boundary_violations := violations
    factor_sleep_quality := avg_sleep_quality
    trend_direction := if risk_score < 50 then "stable" else "declining"
    likelihood :=
      if risk_score < 20 then "very_low"
      else if risk_score < 40 then "low"
      else if risk_score < 60 then "medium"
      else if risk_score < 80 then "high"
      else "very_high"
    recommendations := burnout_prevention_recommendations risk_score }

/-- Total work minutes of predict_burnout_risk:
sum(s.duration_minutes or 0 for s in work_sessions). The WorkSession model
declares duration_hours and no duration_minutes column, so with a non-empty
result the first generator step raises AttributeError; with an empty result
sum() never touches the attribute and yields 0. -/
def sumWorkSessionMinutes (work_sessions : List WorkSession) : Except PyErr ℚ :=
  if work_sessions.isEmpty then .ok 0 else .error .attributeError

/-- Boundary-violation count of predict_burnout_risk. The filter reads
BoundaryViolation.user_id and BoundaryViolation.occurred_at; the model
declares neither column (it has boundary_id and violation_date), so
building the query raises AttributeError before any row is counted. -/
def queryBoundaryViolationCount (db : DB) (uid cutoff : ℤ) : Except PyErr ℕ :=
  .error .attributeError

/-- Embedding of IntelligenceEngine.predict_burnout_risk: work sessions of
the last 30 days, then the two accesses to nonexistent columns, then the
arithmetic core. -/
def predict_burnout_risk (db : DB) (uid now : ℤ) : Except PyErr BurnoutPrediction := do
  let cutoff := now - daysMin 30
  let work_sessions :=
    (userWorkSessions db uid).filter (fun s => decide (cutoff ≤ s.start_time))
  let total_work_minutes ← sumWorkSessionMinutes work_sessions
  let violations ← queryBoundaryViolationCount db uid cutoff
  let sleeps :=
    (userSleepEntries db uid).filter (fun s => decide (cutoff ≤ s.created_at))
  return predict_burnout_risk_formula total_work_minutes violations sleeps

/-- Dictionary shape returned by IntelligenceEngine._calculate_correlation,
the element type of the correlation lists. -/
structure CorrelationEntry where
  pillar_1 : String
  metric_1 : String
  pillar_2 : String
  metric_2 : String
  correlation_coefficient : ℚ
  p_value : ℚ
  sample_size : ℕ
  strength : String
  direction : String
  is_significant : Bool
  deriving DecidableEq, Repr

/-- Return of IntelligenceEngine._get_financial_timeseries. -/
structure FinancialTimeseriesData where
  daily_spending : List ℚ
  deriving DecidableEq, Repr

/-- Return of IntelligenceEngine._get_health_timeseries. -/
structure HealthTimeseriesData where
  sleep_hours : List ℚ
  sleep_quality : List ℚ
  exercise_minutes : List ℚ
  deriving DecidableEq, Repr

/-- Return of IntelligenceEngine._get_worklife_timeseries. -/
structure WorklifeTimeseriesData where
  daily_work_hours : List ℚ
  deriving DecidableEq, Repr

/-- Return of IntelligenceEngine._get_productivity_timeseries. -/
structure ProductivityTimeseriesData where
  focus_scores : List ℚ
  deep_work_minutes : List ℚ
  deriving DecidableEq, Repr

/-- Return of IntelligenceEngine._get_wellbeing_timeseries. -/
structure WellbeingTimeseriesData where
  mood_scores : List ℚ
  stress_levels : List ℚ
  energy_levels : List ℚ
  deriving DecidableEq, Repr

/-- Embedding of IntelligenceEngine._get_financial_timeseries. Its query
filters on Transaction.date and groups by t.date.date(); the Transaction
model declares transaction_date and no date column, so building the query
raises AttributeError for every database state. -/
def get_financial_timeseries (db : DB) (uid cutoff : ℤ) :
    Except PyErr FinancialTimeseriesData :=
  .error .attributeError

/-- Embedding of IntelligenceEngine._get_health_timeseries. The sleep query
succeeds (SleepEntry.created_at exists) but the exercise query filters on
HealthExercise.performed_at, a column the Exercise model does not declare
(it has exercise_date), so the method raises AttributeError for every
database state. -/
def get_health_timeseries (db : DB) (uid cutoff : ℤ) :
    Except PyErr HealthTimeseriesData :=
  .error .attributeError

/-- Embedding of IntelligenceEngine._get_worklife_timeseries. The query
itself is valid (WorkSession.start_time and user_id exist), but the
grouping loop reads s.duration_minutes, which the WorkSession model does
not declare; with a non-empty result the first iteration raises
AttributeError, with an empty result the loop body never runs. -/
def get_worklife_timeseries (db : DB) (uid cutoff : ℤ) :
    Except PyErr WorklifeTimeseriesData :=
  let work_sessions :=
    (userWorkSessions db uid).filter (fun s => decide (cutoff ≤ s.start_time))
  if work_sessions.isEmpty then .ok { daily_work_hours := [] }
  else .error .attributeError

/-- Embedding of IntelligenceEngine._get_productivity_timeseries (every
column it reads exists on DeepWorkSession). -/
def get_productivity_timeseries (db : DB) (uid cutoff : ℤ) :
    Except PyErr ProductivityTimeseriesData :=
  let deep_work :=
    (userDeepWorkSessions db uid).filter (fun s => decide (cutoff ≤ s.start_time))
  .ok { focus_scores := deep_work.map (fun d => (d.focus_score : ℚ))
        deep_work_minutes := deep_work.map (fun d => (d.duration_minutes : ℚ)) }

/-- Embedding of IntelligenceEngine._get_wellbeing_timeseries (every column
it reads exists on MoodEntry). -/
def get_wellbeing_timeseries (db : DB) (uid cutoff : ℤ) :
    Except PyErr WellbeingTimeseriesData :=
  let mood_data :=
    (userMoodEntries db uid).filter (fun m => decide (cutoff ≤ m.created_at))
  .ok { mood_scores := mood_data.map (fun m => (m.mood_score : ℚ))
        stress_levels := mood_data.map (fun m => (m.stress_level : ℚ))
        energy_levels := mood_data.map (fun m => (m.energy_level : ℚ)) }

/-- Embedding of IntelligenceEngine._correlate_spending_vs_stress: an
implementation placeholder returning the empty list. -/
def correlate_spending_vs_stress (financial_data : FinancialTimeseriesData)
    (wellbeing_data : WellbeingTimeseriesData) : List CorrelationEntry := []

/-- Embedding of IntelligenceEngine._correlate_work_hours_vs_health: an
implementation placeholder returning the empty list. -/
def correlate_work_hours_vs_health (worklife_data : WorklifeTimeseriesData)
    (health_data : HealthTimeseriesData) : List CorrelationEntry := []

/-- Embedding of IntelligenceEngine._correlate_sleep_vs_productivity: an
implementation placeholder returning the empty list. -/
def correlate_sleep_vs_productivity (health_data : HealthTimeseriesData)
    (productivity_data : ProductivityTimeseriesData) : List CorrelationEntry := []

/-- Embedding of IntelligenceEngine._correlate_exercise_vs_mood: an
implementation placeholder returning the empty list. -/
def correlate_exercise_vs_mood (health_data : HealthTimeseriesData)
    (wellbeing_data : WellbeingTimeseriesData) : List CorrelationEntry := []

/-- Embedding of IntelligenceEngine._correlate_meetings_vs_focus: an
implementation placeholder returning the empty list. -/
def correlate_meetings_vs_focus (worklife_data : WorklifeTimeseriesData)
    (productivity_data : ProductivityTimeseriesData) : List CorrelationEntry := []

/-- Embedding of IntelligenceEngine.analyze_correlations: the five
timeseries retrievals, then the concatenation of the five cross-pillar
correlation helpers. -/
def analyze_correlations (db : DB) (uid now : ℤ) (days : ℤ) :
    Except PyErr (List CorrelationEntry) := do
  let cutoff := now - daysMin days
  let financial_data ← get_financial_timeseries db uid cutoff
  let health_data ← get_health_timeseries db uid cutoff
  let worklife_data ← get_worklife_timeseries db uid cutoff
  let productivity_data ← get_productivity_timeseries db uid cutoff
  let wellbeing_data ← get_wellbeing_timeseries db uid cutoff
  return correlate_spending_vs_stress financial_data wellbeing_data
    ++ correlate_work_hours_vs_health worklife_data health_data
    ++ correlate_sleep_vs_productivity health_data productivity_data
    ++ correlate_exercise_vs_mood health_data wellbeing_data
    ++ correlate_meetings_vs_focus worklife_data productivity_data

/-! ## Notification service (app/services/notification_service.py) -/

/-- Embedding of NotificationService._is_notification_enabled: with no
preferences row every notification is enabled; email and push honour their
global switches, the briefing category its switch, and the alert category
is enabled when either the critical or the high alert level is on. -/
def is_notification_enabled (preferences : Option UserPreferences)
    (notification_type category : String) : Bool :=
  match preferences with
  | none => true
  | some p =>
    if notification_type = "email" ∧ ¬ p.enable_email_notifications then false
    else if notification_type = "push" ∧ ¬ p.enable_push_notifications then false
    else if category = "briefing" ∧ ¬ p.daily_briefing_enabled then false
    else if category = "alert" then p.alert_critical_enabled || p.alert_high_enabled
    else true

/-- Address resolution of NotificationService._send_email_notification:
the given address when truthy (a non-empty string), else the email of the
user row with the given id, else nothing; Python string truthiness makes
the empty string count as absent. -/
def resolveEmailAddress (db : DB) (uid : ℤ) (email_address : Option String) :
    Option String :=
  let given := match email_address with
    | some a => if a = "" then none else some a
    | none => none
  match given with
  | some a => some a
  | none =>
    match (db.users.filter (fun u => decide (u.id = uid))).head? with
    | some u => if u.email = "" then none else some u.email
    | none => none

/-- Embedding of NotificationService._send_email_notification: SMTP sending
is a placeholder, the method only prints one console line (or nothing when
no address resolves). The returned list is the console output. -/
def send_email_notification (db : DB) (uid : ℤ) (title message : String)
    (email_address : Option String) : List String :=
  match resolveEmailAddress db uid email_address with
  | none => []
  | some a =>
    ["[EMAIL] To: " ++ a ++ ", Subject: " ++ title ++ ", Body: " ++ message]

/-- Embedding of NotificationService._send_push_notification: a placeholder
printing one console line. -/
def send_push_notification (uid : ℤ) (title message : String)
    (device_token : Option String) : List String :=
  ["[PUSH] To User " ++ toString uid ++ ", Title: " ++ title
    ++ ", Message: " ++ message]

/-- Embedding of NotificationService._create_notification_log: a
NotificationLog row is built, added and committed. newId is the primary key
assigned on insert and now the sent_at server default. -/
def create_notification_log (db : DB) (newId : ℤ) (user_id : ℤ)
    (notification_type category title message status : String)
    (delivery_method extra_data : Option String) (now : ℤ) :
    NotificationLog × DB :=
  let log : NotificationLog :=
    { id := newId
      user_id := user_id
      notification_type := notification_type
      category := category
      title := title
      message := message
      status := status
      delivery_method := delivery_method
      sent_at := now
      delivered_at := none
      read_at := none
      extra_data := extra_data }
  (log, { db with notification_logs := db.notification_logs ++ [log] })

/-- Embedding of NotificationService.send_notification: the user's stored
preferences decide between a "skipped" log (nothing sent) and a "sent" log
preceded by the type-specific placeholder delivery, which at most prints to
the console. The result is the returned log row, the new database state and
the console output. -/
def send_notification (db : DB) (uid : ℤ)
    (notification_type category title message : String)
    (delivery_method extra_data : Option String) (newId now : ℤ) :
    NotificationLog × DB × List String :=
  let preferences := userPreferencesRow db uid
  if ¬ is_notification_enabled preferences notification_type category then
    let r := create_notification_log db newId uid notification_type category
      title message "skipped" delivery_method extra_data now
    (r.1, r.2, [])
  else
    let console :=
      if notification_type = "email" then
        send_email_notification db uid title message delivery_method
      else if notification_type = "push" then
        send_push_notification uid title message delivery_method
      else []
    let r := create_notification_log db newId uid notification_type category
      title message "sent" delivery_method extra_data now
    (r.1, r.2, console)

/-- Update of the found row in mark_notification_read: read_at is set to
utcnow and status to "read"; every other field is kept. -/
def markRead (n : NotificationLog) (now : ℤ) : NotificationLog :=
  { n with read_at := some now, status := "read" }

/-- First row matching id and user_id is updated in place; rows before and
after it are untouched. Returns the updated row (None when no row matches)
and the new table. -/
def markFirstMatch (notification_id user_id now : ℤ) :
    List NotificationLog → Option NotificationLog × List NotificationLog
  | [] => (none, [])
  | n :: rest =>
    if n.id = notification_id ∧ n.user_id = user_id then
      (some (markRead n now), markRead n now :: rest)
    else
      let r := markFirstMatch notification_id user_id now rest
      (r.1, n :: r.2)

/-- Embedding of NotificationService.mark_notification_read: the first
NotificationLog row with the given id and user_id gets read_at = utcnow and
status = "read" and is returned; with no such row nothing changes and None
is returned. -/
def mark_notification_read (db : DB) (notification_id user_id : ℤ)
    (now : ℤ) : Option NotificationLog × DB :=
  let r := markFirstMatch notification_id user_id now db.notification_logs
  (r.1, { db with notification_logs := r.2 })

/-! ## Concrete fixtures used by the witness theorems -/

/-- Payload used by the C3 witness. -/
def samplePayload : TransactionCreate :=
  { transaction_type := .expense, category := .food, amount := 25,
    description := none, transaction_date := 100, merchant := none,
    tags := none }

/-- Database state A of the C5 witness: one row of user 1, one of user 2. -/
def dbNoninterfA : DB :=
  { emptyDB with
    transactions := [
      { id := 1, user_id := 1, transaction_type := .income,
        category := .salary, amount := 100, description := none,
        transaction_date := 10, merchant := none, tags := none,
        created_at := 0, updated_at := none },
      { id := 2, user_id := 2, transaction_type := .expense,
        category := .food, amount := 5, description := none,
        transaction_date := 11, merchant := none, tags := none,
        created_at := 0, updated_at := none }] }

/-- Database state B of the C5 witness: the same user-1 row, user 2 gone,
and an unrelated debt of user 3 added. -/
def dbNoninterfB : DB :=
  { emptyDB with
    transactions := [
      { id := 1, user_id := 1, transaction_type := .income,
        category := .salary, amount := 100, description := none,
        transaction_date := 10, merchant := none, tags := none,
        created_at := 0, updated_at := none }],
    debts := [
      { id := 9, user_id := 3, debt_type := .other, name := "loan",
        original_amount := 1, current_balance := 1, interest_rate := 1,
        minimum_payment := 1, due_date := none, start_date := 0,
        target_payoff_date := none, is_active := 1, notes := none }] }

/-! ## Bounds lemmas for the score components -/

theorem rndHalfEven_nonneg {x : ℚ} (hx : 0 ≤ x) : 0 ≤ rndHalfEven x := by
  unfold rndHalfEven
  have hf : (0 : ℤ) ≤ ⌊x⌋ := Int.floor_nonneg.mpr hx
  split_ifs <;> omega

theorem rndHalfEven_le {x : ℚ} {B : ℤ} (hx : x ≤ (B : ℚ)) : rndHalfEven x ≤ B := by
  unfold rndHalfEven
  have hf : ⌊x⌋ ≤ B := by
    have h : (⌊x⌋ : ℚ) ≤ (B : ℚ) := le_trans (Int.floor_le x) hx
    exact_mod_cast h
  have hstrict : (1 : ℚ)/2 ≤ x - ⌊x⌋ → ⌊x⌋ + 1 ≤ B := by
    intro h2
    have hlt : (⌊x⌋ : ℚ) ≤ (B : ℚ) - 1/2 := by linarith
    have : ⌊x⌋ < B := by
      by_contra hc
      push_neg at hc
      have : (B : ℚ) ≤ (⌊x⌋ : ℚ) := by exact_mod_cast hc
      linarith
    omega
  split_ifs with h1 h2 h3
  · exact hf
  · exact hstrict (le_of_lt h2)
  · exact hf
  · exact hstrict (le_of_not_lt h1)

theorem pyRound2_nonneg {x : ℚ} (hx : 0 ≤ x) : 0 ≤ pyRound2 x := by
  unfold pyRound2
  have h : (0 : ℤ) ≤ rndHalfEven (x * 100) := rndHalfEven_nonneg (by positivity)
  have : (0 : ℚ) ≤ (rndHalfEven (x * 100) : ℚ) := by exact_mod_cast h
  positivity

theorem pyRound2_le {x : ℚ} {B : ℤ} (hx : x ≤ (B : ℚ)) : pyRound2 x ≤ (B : ℚ) := by
  unfold pyRound2
  have h : rndHalfEven (x * 100) ≤ B * 100 := by
    apply rndHalfEven_le
    push_cast
    linarith
  have h' : (rndHalfEven (x * 100) : ℚ) ≤ (B : ℚ) * 100 := by exact_mod_cast h
  linarith

theorem bmiScore_bounds (b : Option ℚ) : 0 ≤ HealthCalculator.bmiScore b ∧ HealthCalculator.bmiScore b ≤ 20 := by
  cases b with
  | none => simp [HealthCalculator.bmiScore]
  | some x =>
    simp only [HealthCalculator.bmiScore]
    split_ifs <;> norm_num

theorem sleepScore_bounds (s : Option ℚ) : 0 ≤ HealthCalculator.sleepScore s ∧ HealthCalculator.sleepScore s ≤ 20 := by
  cases s with
  | none => simp [HealthCalculator.sleepScore]
  | some x =>
    simp only [HealthCalculator.sleepScore]
    split_ifs <;> norm_num

theorem exerciseScore_bounds (e : Option ℤ) : 0 ≤ HealthCalculator.exerciseScore e ∧ HealthCalculator.exerciseScore e ≤ 25 := by
  cases e with
  | none => simp [HealthCalculator.exerciseScore]
  | some x =>
    simp only [HealthCalculator.exerciseScore]
    split_ifs <;> norm_num

theorem nutritionPoints_bounds (ns : Option ℚ)
    (h : ∀ n, ns = some n → 0 ≤ n ∧ n ≤ 100) :
    0 ≤ HealthCalculator.nutritionPoints ns ∧ HealthCalculator.nutritionPoints ns ≤ 20 := by
  cases ns with
  | none => simp [HealthCalculator.nutritionPoints]
  | some n =>
    obtain ⟨h0, h100⟩ := h n rfl
    simp only [HealthCalculator.nutritionPoints]
    constructor <;> linarith

theorem bpPoints_bounds (s : Option ℤ) : 0 ≤ HealthCalculator.bpPoints s ∧ HealthCalculator.bpPoints s ≤ 7.5 := by
  cases s with
  | none => norm_num [HealthCalculator.bpPoints]
  | some x =>
    simp only [HealthCalculator.bpPoints]
    split_ifs <;> norm_num

theorem hrPoints_bounds (h : Option ℤ) : 0 ≤ HealthCalculator.hrPoints h ∧ HealthCalculator.hrPoints h ≤ 7.5 := by
  cases h with
  | none => norm_num [HealthCalculator.hrPoints]
  | some x =>
    simp only [HealthCalculator.hrPoints]
    split_ifs <;> norm_num

theorem healthTotalScore_bounds (bmi sleep_avg : Option ℚ) (ed : Option ℤ)
    (ns : Option ℚ) (bp hr : Option ℤ)
    (h : ∀ n, ns = some n → 0 ≤ n ∧ n ≤ 100) :
    0 ≤ HealthCalculator.healthTotalScore bmi sleep_avg ed ns bp hr
    ∧ HealthCalculator.healthTotalScore bmi sleep_avg ed ns bp hr ≤ 100 := by
  obtain ⟨hb0, hb1⟩ := bmiScore_bounds bmi
  obtain ⟨hs0, hs1⟩ := sleepScore_bounds sleep_avg
  obtain ⟨he0, he1⟩ := exerciseScore_bounds ed
  obtain ⟨hn0, hn1⟩ := nutritionPoints_bounds ns h
  obtain ⟨hp0, hp1⟩ := bpPoints_bounds bp
  obtain ⟨hh0, hh1⟩ := hrPoints_bounds hr
  have hnr0 : 0 ≤ pyRound2 (HealthCalculator.nutritionPoints ns) := pyRound2_nonneg hn0
  have hnr1 : pyRound2 (HealthCalculator.nutritionPoints ns) ≤ ((20 : ℤ) : ℚ) := by
    apply pyRound2_le
    push_cast
    linarith
  have hvr0 : 0 ≤ pyRound2 (HealthCalculator.bpPoints bp + HealthCalculator.hrPoints hr) :=
    pyRound2_nonneg (by linarith)
  have hvr1 : pyRound2 (HealthCalculator.bpPoints bp + HealthCalculator.hrPoints hr) ≤ ((15 : ℤ) : ℚ) := by
    apply pyRound2_le
    push_cast
    linarith
  unfold HealthCalculator.healthTotalScore
  push_cast at hnr1 hvr1
  constructor <;> linarith

theorem avgSleepQuality_nonneg (sleeps : List SleepEntry)
    (h : ∀ s ∈ sleeps, 0 ≤ s.sleep_quality) : 0 ≤ avgSleepQuality sleeps := by
  unfold avgSleepQuality
  split_ifs with he
  · norm_num
  · apply div_nonneg
    · apply List.sum_nonneg
      intro x hx
      simp only [List.mem_map] at hx
      obtain ⟨s, hs, rfl⟩ := hx
      exact_mod_cast h s hs
    · positivity

theorem burnoutRiskScore_bounds (adh : ℚ) (v : ℕ) (q : ℚ) (hq : 0 ≤ q) :
    0 ≤ burnoutRiskScore adh v q ∧ burnoutRiskScore adh v q ≤ 100 := by
  unfold burnoutRiskScore
  have h1a : 0 ≤ (if 8 < adh then min 40 ((adh - 8) * 5) else (0 : ℚ)) := by
    split_ifs with hgt
    · exact le_min (by norm_num) (by nlinarith)
    · exact le_refl 0
  have h1b : (if 8 < adh then min 40 ((adh - 8) * 5) else (0 : ℚ)) ≤ 40 := by
    split_ifs with hgt
    · exact min_le_left _ _
    · norm_num
  have h2a : 0 ≤ min 30 ((v : ℚ) * 2.5) := le_min (by norm_num) (by positivity)
  have h2b : min 30 ((v : ℚ) * 2.5) ≤ 30 := min_le_left _ _
  have h3a : 0 ≤ max 0 ((7 - q) * 4) := le_max_left _ _
  have h3b : max 0 ((7 - q) * 4) ≤ 28 := max_le (by norm_num) (by linarith)
  constructor <;> linarith

theorem dashboardHealthScore_mem (sr iv td : ℚ) :
    0 ≤ pyRound2 (dashboardHealthScore sr iv td)
    ∧ pyRound2 (dashboardHealthScore sr iv td) ≤ 100 := by
  have h0 : 0 ≤ dashboardHealthScore sr iv td := by
    unfold dashboardHealthScore
    exact le_min (by norm_num) (le_max_left _ _)
  have h1 : dashboardHealthScore sr iv td ≤ 100 := min_le_left _ _
  have r0 : 0 ≤ pyRound2 (dashboardHealthScore sr iv td) := pyRound2_nonneg h0
  have r1 : pyRound2 (dashboardHealthScore sr iv td) ≤ ((100 : ℤ) : ℚ) := by
    apply pyRound2_le
    push_cast
    linarith
  push_cast at r1
  exact ⟨r0, r1⟩

/-! ## Claim theorems -/

/-- C2: for every weight_kg and every height_cm > 0, calculate_bmi equals
the specification formula BMI = weight/height² (height in metres, i.e.
height_cm/100) rounded to two places with the rounding of the Python
builtin round. -/
theorem bmi_matches_spec_formula (weight_kg height_cm : ℚ)
    (h : 0 < height_cm) :
    HealthCalculator.calculate_bmi weight_kg height_cm
      = pyRound2 (HealthCalculator.bmiSpecFormula weight_kg (height_cm / 100)) := rfl

/-- Witness for C2 at weight 70 kg and height 175 cm. -/
theorem bmi_matches_spec_formula_witness :
    HealthCalculator.calculate_bmi 70 175
      = pyRound2 (HealthCalculator.bmiSpecFormula 70 (175 / 100)) :=
  bmi_matches_spec_formula 70 175 (by norm_num)

/-- C9: height_cm ≠ 0 is a genuine precondition of calculate_bmi: under it
the division-by-zero branch of the total embedding is unreachable and the
checked function returns exactly the value calculate_bmi computes, while
height_cm = 0 hits the error branch (a ZeroDivisionError in Python). -/
theorem bmi_zero_height_guard :
    (∀ w h : ℚ, h ≠ 0 →
        HealthCalculator.calculate_bmi_checked w h
          = some (HealthCalculator.calculate_bmi w h))
    ∧ (∀ w : ℚ, HealthCalculator.calculate_bmi_checked w 0 = none) := by
  constructor
  · intro w h hh
    have hdiv : (h : ℚ) / 100 ≠ 0 := div_ne_zero hh (by norm_num)
    have hsq : ((h : ℚ) / 100) ^ 2 ≠ 0 := pow_ne_zero 2 hdiv
    unfold HealthCalculator.calculate_bmi_checked HealthCalculator.calculate_bmi
    simp [hsq]
  · intro w
    unfold HealthCalculator.calculate_bmi_checked
    norm_num

/-- C6: the five _correlate_* helpers of the intelligence engine all return
the empty list unconditionally, so the intended result of
analyze_correlations is []; the method itself never produces it, because
the timeseries retrieval reads columns the models do not declare
(Transaction.date, HealthExercise.performed_at) and raises AttributeError
on every database state. -/
theorem analyze_correlations_stub :
    (∀ (db : DB) (uid now days : ℤ),
        analyze_correlations db uid now days = Except.error PyErr.attributeError)
    ∧ (∀ fd wd, correlate_spending_vs_stress fd wd = [])
    ∧ (∀ wd hd, correlate_work_hours_vs_health wd hd = [])
    ∧ (∀ hd pd, correlate_sleep_vs_productivity hd pd = [])
    ∧ (∀ hd wd, correlate_exercise_vs_mood hd wd = [])
    ∧ (∀ wd pd, correlate_meetings_vs_focus wd pd = []) := by
  refine ⟨fun db uid now days => rfl, fun _ _ => rfl, fun _ _ => rfl,
    fun _ _ => rfl, fun _ _ => rfl, fun _ _ => rfl⟩

/-- C1: the weighted-sum scores are bounded to 0-100. First conjunct:
calculate_health_score with a nutrition_score in its documented range
returns 0 ≤ overall_score ≤ max_score = 100. Second conjunct: the burnout
risk formula applied to the queried rows (with sleep_quality values ≥ 0)
yields current_value in [0, 100]. Third conjunct: predict_burnout_risk as
written never returns that value: it raises AttributeError on every
database state, because the model columns it queries do not exist. Fourth
conjunct: the financial dashboard health score is clamped into [0, 100]. -/
theorem wellbeing_scores_bounded :
    (∀ (bmi sleep_avg : Option ℚ) (exercise_days : Option ℤ)
        (nutrition_score : Option ℚ) (bp hr : Option ℤ),
      (∀ n, nutrition_score = some n → 0 ≤ n ∧ n ≤ 100) →
      0 ≤ (HealthCalculator.calculate_health_score bmi sleep_avg exercise_days
            nutrition_score bp hr).overall_score
      ∧ (HealthCalculator.calculate_health_score bmi sleep_avg exercise_days
            nutrition_score bp hr).overall_score
          ≤ (HealthCalculator.calculate_health_score bmi sleep_avg exercise_days
            nutrition_score bp hr).max_score
      ∧ (HealthCalculator.calculate_health_score bmi sleep_avg exercise_days
            nutrition_score bp hr).max_score = 100)
    ∧ (∀ (total_work_minutes : ℚ) (violations : ℕ) (sleeps : List SleepEntry),
      (∀ s ∈ sleeps, 0 ≤ s.sleep_quality) →
      0 ≤ (predict_burnout_risk_formula total_work_minutes violations sleeps).current_value
      ∧ (predict_burnout_risk_formula total_work_minutes violations sleeps).current_value ≤ 100)
    ∧ (∀ (db : DB) (uid now : ℤ),
      predict_burnout_risk db uid now = Except.error PyErr.attributeError)
    ∧ (∀ (db : DB) (uid cms lms : ℤ),
      0 ≤ (get_financial_dashboard db uid cms lms).financial_health_score
      ∧ (get_financial_dashboard db uid cms lms).financial_health_score ≤ 100) := by
  refine ⟨?_, ?_, ?_, ?_⟩
  · intro bmi sleep_avg exercise_days nutrition_score bp hr h
    obtain ⟨ht0, ht1⟩ := healthTotalScore_bounds bmi sleep_avg exercise_days
      nutrition_score bp hr h
    refine ⟨pyRound2_nonneg ht0, ?_, by norm_num [HealthCalculator.calculate_health_score]⟩
    have hb : pyRound2 (HealthCalculator.healthTotalScore bmi sleep_avg exercise_days
        nutrition_score bp hr) ≤ ((100 : ℤ) : ℚ) := by
      apply pyRound2_le
      push_cast
      linarith
    push_cast at hb
    show pyRound2 (HealthCalculator.healthTotalScore bmi sleep_avg exercise_days
        nutrition_score bp hr) ≤ (20 + 20 + 25 + 20 + 15 : ℚ)
    linarith
  · intro total_work_minutes violations sleeps h
    exact burnoutRiskScore_bounds (total_work_minutes / 60 / 30) violations
      (avgSleepQuality sleeps) (avgSleepQuality_nonneg sleeps h)
  · intro db uid now
    have hsum : ∀ l : List WorkSession, sumWorkSessionMinutes l = Except.ok 0
        ∨ sumWorkSessionMinutes l = Except.error PyErr.attributeError := by
      intro l
      unfold sumWorkSessionMinutes
      split_ifs <;> simp
    rcases hsum ((userWorkSessions db uid).filter
        (fun s => decide (now - daysMin 30 ≤ s.start_time))) with h | h <;>
      simp only [predict_burnout_risk, bind, Except.bind, h,
        queryBoundaryViolationCount]
  · intro db uid cms lms
    exact dashboardHealthScore_mem _ _ _

/-- Witness for C1: the score bounds evaluated at one concrete input and
the burnout AttributeError at the empty database. -/
theorem wellbeing_scores_bounded_witness :
    (0 ≤ (HealthCalculator.calculate_health_score (some 22) (some 8) (some 3)
        (some 80) (some 115) (some 70)).overall_score)
    ∧ predict_burnout_risk emptyDB 1 0 = Except.error PyErr.attributeError :=
  ⟨(wellbeing_scores_bounded.1 (some 22) (some 8) (some 3) (some 80) (some 115)
      (some 70) (fun n hn => by cases hn; norm_num)).1,
   wellbeing_scores_bounded.2.2.1 emptyDB 1 0⟩

/-- Invariant of the payoff loop: starting at month m with fuel months of
budget left, the final month is at most m + fuel, and when debts remain at
exit the loop ran the fuel out, i.e. the final month is exactly m + fuel. -/
theorem payoffGo_spec (monthly : ℚ) (fuel : ℕ) :
    ∀ (m : ℕ) (rem : List DebtSimEntry) (interest : ℚ) (tl : List (ℕ × String)),
      (payoffGo monthly fuel m rem interest tl).current_month ≤ m + fuel
      ∧ ((payoffGo monthly fuel m rem interest tl).remaining_debts ≠ [] →
          (payoffGo monthly fuel m rem interest tl).current_month = m + fuel) := by
  induction fuel with
  | zero =>
    intro m rem interest tl
    constructor
    · simp [payoffGo]
    · intro _
      simp [payoffGo]
  | succ fuel ih =>
    intro m rem interest tl
    by_cases hrem : rem.isEmpty
    · constructor
      · simp only [payoffGo, hrem, if_true]
        omega
      · intro hne
        simp only [payoffGo, hrem, if_true] at hne
        rw [List.isEmpty_iff] at hrem
        exact absurd hrem hne
    · obtain ⟨ih1, ih2⟩ := ih (m + 1)
        (payoffMonthStep monthly (m + 1) rem interest tl).1
        (payoffMonthStep monthly (m + 1) rem interest tl).2.1
        (payoffMonthStep monthly (m + 1) rem interest tl).2.2
      have hred : payoffGo monthly (fuel + 1) m rem interest tl
          = payoffGo monthly fuel (m + 1)
              (payoffMonthStep monthly (m + 1) rem interest tl).1
              (payoffMonthStep monthly (m + 1) rem interest tl).2.1
              (payoffMonthStep monthly (m + 1) rem interest tl).2.2 := by
        simp only [payoffGo, hrem, if_false, Bool.false_eq_true]
      rw [hred]
      refine ⟨by omega, fun hne => ?_⟩
      have := ih2 hne
      omega

/-- C7: the debt payoff simulation always terminates within the 30-year
cap: for every monthly payment and every list of prepared debts, the loop
runs at most 360 iterations (current_month ≤ 360), and the computed
total_months is None exactly when some debt remains unpaid at exit, which
happens only at month 360. -/
theorem debt_payoff_loop_bounded (monthly_payment : ℚ)
    (debt_data : List DebtSimEntry) :
    (runPayoffSimulation monthly_payment debt_data).current_month ≤ 360
    ∧ (payoffTotalMonths (runPayoffSimulation monthly_payment debt_data) = none
        ↔ (runPayoffSimulation monthly_payment debt_data).remaining_debts ≠ [])
    ∧ ((runPayoffSimulation monthly_payment debt_data).remaining_debts ≠ [] →
        (runPayoffSimulation monthly_payment debt_data).current_month = 360) := by
  obtain ⟨h1, h2⟩ := payoffGo_spec monthly_payment 360 0 debt_data 0 []
  refine ⟨by simpa [runPayoffSimulation] using h1, ?_,
    by simpa [runPayoffSimulation] using h2⟩
  unfold payoffTotalMonths
  split_ifs with he
  · rw [List.isEmpty_iff] at he
    simp [he]
  · rw [List.isEmpty_iff] at he
    simp [he]

/-- C8: send_notification always appends exactly one NotificationLog row to
the database (its only state change), the row carries the given fields, its
status is "sent" when _is_notification_enabled accepts the stored
preferences and "skipped" otherwise, and for a type that is neither email
nor push nothing is even printed to the console. -/
theorem send_notification_console_stub (db : DB) (uid : ℤ)
    (ntype cat title msg : String) (dm ed : Option String) (newId now : ℤ) :
    ((send_notification db uid ntype cat title msg dm ed newId now).2.1
      = { db with notification_logs :=
            db.notification_logs
              ++ [(send_notification db uid ntype cat title msg dm ed newId now).1] })
    ∧ ((send_notification db uid ntype cat title msg dm ed newId now).1.status
        = if is_notification_enabled (userPreferencesRow db uid) ntype cat
          then "sent" else "skipped")
    ∧ ((send_notification db uid ntype cat title msg dm ed newId now).1.user_id = uid)
    ∧ ((send_notification db uid ntype cat title msg dm ed newId now).1.notification_type
        = ntype)
    ∧ ((send_notification db uid ntype cat title msg dm ed newId now).1.category = cat)
    ∧ ((send_notification db uid ntype cat title msg dm ed newId now).1.title = title)
    ∧ ((send_notification db uid ntype cat title msg dm ed newId now).1.message = msg)
    ∧ (ntype ≠ "email" → ntype ≠ "push" →
        (send_notification db uid ntype cat title msg dm ed newId now).2.2 = []) := by
  by_cases h : is_notification_enabled (userPreferencesRow db uid) ntype cat
  · refine ⟨?_, ?_, ?_, ?_, ?_, ?_, ?_, ?_⟩ <;>
      simp [send_notification, create_notification_log, h]
    intro h1 h2
    simp [h1, h2]
  · refine ⟨?_, ?_, ?_, ?_, ?_, ?_, ?_, ?_⟩ <;>
      simp [send_notification, create_notification_log, h]

/-- First-match update lemma: with no row matching, markFirstMatch changes
nothing and reports none. -/
theorem markFirstMatch_none (nid uid now : ℤ) :
    ∀ l : List NotificationLog,
      (∀ r ∈ l, ¬(r.id = nid ∧ r.user_id = uid)) →
      markFirstMatch nid uid now l = (none, l) := by
  intro l
  induction l with
  | nil => intro _; rfl
  | cons n rest ih =>
    intro h
    have hn := h n (List.mem_cons_self n rest)
    have hrest : ∀ r ∈ rest, ¬(r.id = nid ∧ r.user_id = uid) :=
      fun r hr => h r (List.mem_cons_of_mem n hr)
    simp only [markFirstMatch]
    rw [if_neg hn]
    simp [ih hrest]

/-- First-match update lemma: the first matching row is replaced by its
markRead update, rows before and after are untouched. -/
theorem markFirstMatch_found (nid uid now : ℤ) :
    ∀ (pre : List NotificationLog) (r : NotificationLog)
      (post : List NotificationLog),
      (∀ q ∈ pre, ¬(q.id = nid ∧ q.user_id = uid)) →
      (r.id = nid ∧ r.user_id = uid) →
      markFirstMatch nid uid now (pre ++ r :: post)
        = (some (markRead r now), pre ++ markRead r now :: post) := by
  intro pre
  induction pre with
  | nil =>
    intro r post _ hr
    simp only [List.nil_append, markFirstMatch]
    rw [if_pos hr]
  | cons q qs ih =>
    intro r post hpre hr
    have hq := hpre q (List.mem_cons_self q qs)
    have hqs : ∀ p ∈ qs, ¬(p.id = nid ∧ p.user_id = uid) :=
      fun p hp => hpre p (List.mem_cons_of_mem q hp)
    simp only [List.cons_append, markFirstMatch]
    rw [if_neg hq]
    simp [ih r post hqs hr]

/-- C10: mark_notification_read touches only the single matching
NotificationLog row, setting its read_at and status fields and leaving
every other row, field and table of the database unchanged; with no
matching row it returns None and the database exactly as it was. -/
theorem mark_notification_read_frame (db : DB) (nid uid now : ℤ) :
    ((∀ r ∈ db.notification_logs, ¬(r.id = nid ∧ r.user_id = uid)) →
        mark_notification_read db nid uid now = (none, db))
    ∧ (∀ (pre : List NotificationLog) (r : NotificationLog)
        (post : List NotificationLog),
        db.notification_logs = pre ++ r :: post →
        (∀ q ∈ pre, ¬(q.id = nid ∧ q.user_id = uid)) →
        r.id = nid → r.user_id = uid →
        mark_notification_read db nid uid now
          = (some (markRead r now),
             { db with notification_logs := pre ++ markRead r now :: post })) := by
  constructor
  · intro h
    unfold mark_notification_read
    rw [markFirstMatch_none nid uid now _ h]
  · intro pre r post hsplit hpre h1 h2
    unfold mark_notification_read
    rw [hsplit, markFirstMatch_found nid uid now pre r post hpre ⟨h1, h2⟩]

/-- Absence of a matching transaction row is exactly what makes the scoped
find? query come back empty. -/
theorem find_user_txn_none_iff (db : DB) (uid tid : ℤ) :
    ((userTransactions db uid).find? (fun t => decide (t.id = tid)) = none)
      ↔ ¬ ∃ t ∈ db.transactions, t.id = tid ∧ t.user_id = uid := by
  simp only [List.find?_eq_none, userTransactions, List.mem_filter,
    decide_eq_true_eq]
  constructor
  · rintro h ⟨t, ht, hid, huid⟩
    exact h t ⟨ht, huid⟩ hid
  · rintro h t ⟨ht, huid⟩ hid
    exact h ⟨t, ht, hid, huid⟩

/-- C4: get_transaction and delete_transaction raise HTTP 404 exactly when
no transaction with the given id belongs to the current user, and whenever
404 is raised the database state is unchanged (get never changes it at
all). -/
theorem transaction_404_iff_absent (db : DB) (uid tid : ℤ) :
    ((get_transaction db uid tid).1 = Except.error 404
      ↔ ¬ ∃ t ∈ db.transactions, t.id = tid ∧ t.user_id = uid)
    ∧ (get_transaction db uid tid).2 = db
    ∧ ((delete_transaction db uid tid).1 = Except.error 404
      ↔ ¬ ∃ t ∈ db.transactions, t.id = tid ∧ t.user_id = uid)
    ∧ ((delete_transaction db uid tid).1 = Except.error 404 →
        (delete_transaction db uid tid).2 = db) := by
  have hiff := find_user_txn_none_iff db uid tid
  rcases hfind : (userTransactions db uid).find? (fun t => decide (t.id = tid))
    with _ | t
  · have habs : ¬ ∃ t ∈ db.transactions, t.id = tid ∧ t.user_id = uid :=
      hiff.mp hfind
    unfold get_transaction delete_transaction
    rw [hfind]
    exact ⟨iff_of_true rfl habs, rfl, iff_of_true rfl habs, fun _ => rfl⟩
  · have hex : ∃ t ∈ db.transactions, t.id = tid ∧ t.user_id = uid := by
      by_contra hc
      have := hiff.mpr hc
      rw [hfind] at this
      exact Option.noConfusion this
    unfold get_transaction delete_transaction
    rw [hfind]
    exact ⟨iff_of_false (by simp) (not_not_intro hex), rfl,
      iff_of_false (by simp) (not_not_intro hex),
      fun hcontra => absurd hcontra (by simp)⟩

/-- C3: POST /transactions replies 201 and persists a row scoped to the
authenticated user: every payload field is stored as sent, user_id is the
current user's id, and the new row is appended to the transactions table. -/
theorem create_transaction_spec (db : DB) (uid : ℤ)
    (payload : TransactionCreate) (newId now : ℤ)
    (hvalid : 0 < payload.amount) :
    (create_transaction db uid payload newId now).1 = 201
    ∧ (create_transaction db uid payload newId now).2.1.user_id = uid
    ∧ (create_transaction db uid payload newId now).2.1.transaction_type
        = payload.transaction_type
    ∧ (create_transaction db uid payload newId now).2.1.category = payload.category
    ∧ (create_transaction db uid payload newId now).2.1.amount = payload.amount
    ∧ (create_transaction db uid payload newId now).2.1.description
        = payload.description
    ∧ (create_transaction db uid payload newId now).2.1.transaction_date
        = payload.transaction_date
    ∧ (create_transaction db uid payload newId now).2.1.merchant = payload.merchant
    ∧ (create_transaction db uid payload newId now).2.1.tags = payload.tags
    ∧ (create_transaction db uid payload newId now).2.2.transactions
        = db.transactions ++ [(create_transaction db uid payload newId now).2.1] :=
  ⟨rfl, rfl, rfl, rfl, rfl, rfl, rfl, rfl, rfl, rfl⟩

/-- Witness for C3: the creation evaluated on the empty database. -/
theorem create_transaction_spec_witness :
    (create_transaction emptyDB 1 samplePayload 1 0).1 = 201
    ∧ (create_transaction emptyDB 1 samplePayload 1 0).2.1.user_id = 1 :=
  ⟨(create_transaction_spec emptyDB 1 samplePayload 1 0
      (by norm_num [samplePayload])).1,
   (create_transaction_spec emptyDB 1 samplePayload 1 0
      (by norm_num [samplePayload])).2.1⟩

/-- C5: user-scoped noninterference of the read endpoints: two database
states that agree on the current user's transactions, investments and debts
(and may differ arbitrarily elsewhere) produce identical responses from
get_transactions (any filter combination) and from the financial
dashboard. -/
theorem user_scoped_reads_noninterference (db1 db2 : DB) (uid : ℤ)
    (skip limit : ℕ) (transaction_type : Option TransactionType)
    (category : Option TransactionCategory) (start_date end_date : Option ℤ)
    (min_amount max_amount : Option ℚ) (cms lms : ℤ)
    (ht : userTransactions db1 uid = userTransactions db2 uid)
    (hi : userInvestments db1 uid = userInvestments db2 uid)
    (hd : userDebts db1 uid = userDebts db2 uid) :
    get_transactions db1 uid skip limit transaction_type category
        start_date end_date min_amount max_amount
      = get_transactions db2 uid skip limit transaction_type category
        start_date end_date min_amount max_amount
    ∧ get_financial_dashboard db1 uid cms lms
      = get_financial_dashboard db2 uid cms lms := by
  constructor
  · unfold get_transactions
    rw [ht]
  · unfold get_financial_dashboard
    rw [ht, hi, hd]

/-- Witness for C5: the two concrete states agree on user 1 and give the
same transaction list and dashboard. -/
theorem user_scoped_reads_noninterference_witness :
    get_transactions dbNoninterfA 1 0 100 none none none none none none
      = get_transactions dbNoninterfB 1 0 100 none none none none none none
    ∧ get_financial_dashboard dbNoninterfA 1 0 0
      = get_financial_dashboard dbNoninterfB 1 0 0 :=
  user_scoped_reads_noninterference dbNoninterfA dbNoninterfB 1 0 100 none none
    none none none none 0 0 rfl rfl rfl
